import Mathlib

/-!
Shallow embedding of `src/usbInterface.c` (TinyUSB vendor-class driver).

Modelling conventions:
* The C file's static globals become fields of `DriverState`:
  `g_opened ↦ opened`, `g_busy ↦ busy`, `_bulk_in ↦ bulkIn`,
  `_bulk_out ↦ bulkOut`, `_ctrl_req_buf ↦ ctrlReqBuf : Nat → Nat`,
  `g_usbOutCallback != NULL ↦ cbRegistered`.
* Calls the driver makes into the USB stack (`usbd_edpt_xfer`,
  `usbd_edpt_close`, `usbd_open_edpt_pair`, `tud_control_xfer`) and into the
  registered consumer callback are recorded as a list of `Event`s; the boolean
  results of the fallible stack calls are supplied as explicit oracle
  parameters, since the macros `TU_VERIFY` / `TU_ASSERT` early-return on a
  false result.
* The C `assert(length % 64 == 0)` aborts the program when violated, so
  `usbInterfaceSendBuffer` returns `Option`, with `none` for the abort.
* `rhport` is forwarded by the C code only to the stack and to logging; it is
  kept as an (unused) argument to mirror the signatures.
* Fixed sizes: `sizeof(tusb_desc_interface_t) = 9`,
  `sizeof(tusb_desc_endpoint_t) = 7`, `sizeof(_bulk_out_buf) = 64`,
  `sizeof(_ctrl_req_buf) = 256`.
-/

namespace UsbInterface

/-- `#define BULK_BUFLEN_OUT (64)`, also `sizeof(_bulk_out_buf)`. -/
def BULK_BUFLEN_OUT : Nat := 64

/-- `sizeof(_ctrl_req_buf)` (the 256-byte control scratch buffer). -/
def CTRL_REQ_BUF_LEN : Nat := 256

/-- TinyUSB `TUSB_CLASS_VENDOR_SPECIFIC = 0xFF`. -/
def TUSB_CLASS_VENDOR_SPECIFIC : Nat := 0xFF

/-- TinyUSB `TUSB_REQ_GET_STATUS = 0`. -/
def TUSB_REQ_GET_STATUS : Nat := 0

/-- TinyUSB `TUSB_REQ_TYPE_STANDARD = 0`. -/
def TUSB_REQ_TYPE_STANDARD : Nat := 0

/-- TinyUSB `TUSB_REQ_RCPT_INTERFACE = 1`. -/
def TUSB_REQ_RCPT_INTERFACE : Nat := 1

/-- TinyUSB `TUSB_DIR_IN = 1`. -/
def TUSB_DIR_IN : Nat := 1

/-- `sizeof(tusb_desc_interface_t)`: a USB interface descriptor is 9 bytes. -/
def DESC_INTERFACE_LEN : Nat := 9

/-- `sizeof(tusb_desc_endpoint_t)`: a USB endpoint descriptor is 7 bytes. -/
def DESC_ENDPOINT_LEN : Nat := 7

/-- The buffers the driver hands to the stack or to the consumer callback. -/
inductive Buf where
  /-- `_bulk_out_buf`, the 64-byte receive buffer. -/
  | bulkOutBuf
  /-- `_ctrl_req_buf`, the 256-byte control scratch buffer. -/
  | ctrlScratch
  /-- The caller-supplied buffer passed to `usbInterfaceSendBuffer`. -/
  | userBuf
deriving DecidableEq, Repr

/-- Observable calls the driver makes into the stack / the consumer. -/
inductive Event where
  /-- `usbd_edpt_xfer(rhport, ep, buf, len)`: submit a transfer. -/
  | submitXfer (ep : Nat) (buf : Buf) (len : Nat)
  /-- `usbd_edpt_close(rhport, ep)`. -/
  | edptClose (ep : Nat)
  /-- `usbd_open_edpt_pair(...)`: claim the bulk endpoint pair. -/
  | openEdptPair
  /-- Invocation of the registered `g_usbOutCallback(buf, len)`. -/
  | consumerCb (buf : Buf) (len : Nat)
  /-- `tud_control_xfer(rhport, req, _ctrl_req_buf, len)`. -/
  | controlXfer (len : Nat)
deriving DecidableEq, Repr

/-- The driver's mutable global state (the statics of `usbInterface.c`). -/
structure DriverState where
  /-- `g_opened`. -/
  opened : Bool
  /-- `g_busy`. -/
  busy : Bool
  /-- `_bulk_in` (0 is the unbound sentinel). -/
  bulkIn : Nat
  /-- `_bulk_out` (0 is the unbound sentinel). -/
  bulkOut : Nat
  /-- `_ctrl_req_buf`, byte by byte. -/
  ctrlReqBuf : Nat → Nat
  /-- Whether `g_usbOutCallback` is non-NULL. -/
  cbRegistered : Bool

/-- The initial values of the statics: everything cleared, no callback. -/
def initState : DriverState :=
  { opened := false, busy := false, bulkIn := 0, bulkOut := 0,
    ctrlReqBuf := fun _ => 0, cbRegistered := false }

/-- `tu_min16`. -/
def tu_min16 (a b : Nat) : Nat := min a b

/-- `xfer_result_t`. -/
inductive XferResult where
  | success
  | failed
  | stalled
  | timedOut
deriving DecidableEq, Repr

/-- The control-transfer stages (`CONTROL_STAGE_*`). -/
inductive CtrlStage where
  | idle
  | setup
  | data
  | ack
deriving DecidableEq, Repr

/-- The fields of `tusb_desc_interface_t` the driver reads. -/
structure InterfaceDesc where
  bInterfaceNumber : Nat
  bInterfaceClass : Nat
  bNumEndpoints : Nat
deriving DecidableEq, Repr

/-- The fields of `tusb_control_request_t` the driver reads, with
`bmRequestType` already split into its bit-fields as in
`req->bmRequestType_bit`. -/
structure ControlRequest where
  /-- `bmRequestType_bit.recipient` (5 bits). -/
  recipient : Nat
  /-- `bmRequestType_bit.type` (2 bits). -/
  reqType : Nat
  /-- `bmRequestType_bit.direction` (1 bit). -/
  direction : Nat
  bRequest : Nat
  wValue : Nat
  wIndex : Nat
  wLength : Nat
deriving DecidableEq, Repr

/-- Results of the stack calls made during `usbinterface_open`:
`pairOk` is the result of `usbd_open_edpt_pair`, which on success writes the
claimed endpoint addresses `epOut` into `_bulk_out` and `epIn` into
`_bulk_in`; `xferOk` is the result of the first `usbd_edpt_xfer` arming the
OUT endpoint. -/
structure OpenOracle where
  pairOk : Bool
  epOut : Nat
  epIn : Nat
  xferOk : Bool
deriving DecidableEq, Repr

/-- Selector for the by-pointer argument of
`usbinterface_disable_endpoint(rhport, uint8_t *ep_addr)`:
`&_bulk_in` or `&_bulk_out`. -/
inductive EpSel where
  | inEp
  | outEp
deriving DecidableEq, Repr

/-- `usbinterface_disable_endpoint`: if the selected endpoint id is nonzero,
clear `g_opened`, close the endpoint in the stack and zero the id; otherwise
do nothing. -/
def usbinterface_disable_endpoint (_rhport : Nat) (s : DriverState)
    (sel : EpSel) : DriverState × List Event :=
  let addr := match sel with
    | EpSel.inEp => s.bulkIn
    | EpSel.outEp => s.bulkOut
  if addr = 0 then (s, [])
  else
    let s1 := { s with opened := false }
    let s2 := match sel with
      | EpSel.inEp => { s1 with bulkIn := 0 }
      | EpSel.outEp => { s1 with bulkOut := 0 }
    (s2, [Event.edptClose addr])

/-- `usbinterface_init`: logging only, no state change. -/
def usbinterface_init (s : DriverState) : DriverState := s

/-- `usbinterface_reset`: logging only, no state change. -/
def usbinterface_reset (_rhport : Nat) (s : DriverState) : DriverState := s

/-- `usbInterfaceRegisterCallback`: store (or clear) the consumer callback. -/
def usbInterfaceRegisterCallback (s : DriverState) (registered : Bool) :
    DriverState :=
  { s with cbRegistered := registered }

/-- `usbInterfaceSendBuffer(buffer, length)`.  Mirrors the source: when
`g_opened && !g_busy`, set `g_busy = true`, `assert(length % 64 == 0)`
(modelled as `none` when violated), submit the transfer on `_bulk_in`
(`TU_ASSERT` returns `false` from the function when the stack call fails,
hence the returned boolean equals `xferOk`); otherwise return `false`
without any effect. -/
def usbInterfaceSendBuffer (s : DriverState) (length : Nat) (xferOk : Bool) :
    Option (DriverState × List Event × Bool) :=
  if s.opened && !s.busy then
    if length % 64 = 0 then
      some ({ s with busy := true },
            [Event.submitXfer s.bulkIn Buf.userBuf length], xferOk)
    else none
  else
    some (s, [], false)

/-- The descriptor length `usbinterface_open` computes:
`sizeof(tusb_desc_interface_t) + bNumEndpoints * sizeof(tusb_desc_endpoint_t)`. -/
def openLen (itf : InterfaceDesc) : Nat :=
  DESC_INTERFACE_LEN + itf.bNumEndpoints * DESC_ENDPOINT_LEN

/-- `usbinterface_open(rhport, itf_desc, max_len)`.  Mirrors the source:
`TU_VERIFY` the class code, `TU_VERIFY max_len >= len`, disable both
endpoints (`_bulk_in` first), `TU_ASSERT(usbd_open_edpt_pair(...))` which on
success binds `_bulk_out`/`_bulk_in`, `TU_ASSERT(usbd_edpt_xfer(...))`
arming the OUT endpoint with the full 64-byte buffer, then set
`g_opened = true` and return `len`.  A failed `TU_VERIFY`/`TU_ASSERT`
returns 0. -/
def usbinterface_open (rhport : Nat) (s : DriverState) (itf : InterfaceDesc)
    (max_len : Nat) (orc : OpenOracle) : DriverState × List Event × Nat :=
  if TUSB_CLASS_VENDOR_SPECIFIC = itf.bInterfaceClass then
    if openLen itf ≤ max_len then
      let r1 := usbinterface_disable_endpoint rhport s EpSel.inEp
      let r2 := usbinterface_disable_endpoint rhport r1.1 EpSel.outEp
      if orc.pairOk then
        let s3 := { r2.1 with bulkOut := orc.epOut, bulkIn := orc.epIn }
        let evs := r1.2 ++ r2.2 ++
          [Event.openEdptPair,
           Event.submitXfer s3.bulkOut Buf.bulkOutBuf BULK_BUFLEN_OUT]
        if orc.xferOk then
          ({ s3 with opened := true }, evs, openLen itf)
        else (s3, evs, 0)
      else (r2.1, r1.2 ++ r2.2 ++ [Event.openEdptPair], 0)
    else (s, [], 0)
  else (s, [], 0)

/-- `usbinterface_control_xfer_cb(rhport, stage, request)`.  Mirrors the
source: clamp `wLength` to the scratch size; return `true` untouched for any
stage other than setup; at setup, handle only `TUSB_REQ_GET_STATUS` with
(standard, interface, device-to-host) `bmRequestType` bits, zeroing the first
two scratch bytes, clamping further to 2 and calling `tud_control_xfer`
(whose result `ctrlOk` is returned); decline (`false`) otherwise. -/
def usbinterface_control_xfer_cb (_rhport : Nat) (s : DriverState)
    (stage : CtrlStage) (req : ControlRequest) (ctrlOk : Bool) :
    DriverState × List Event × Bool :=
  let wLength := tu_min16 req.wLength CTRL_REQ_BUF_LEN
  if stage = CtrlStage.setup then
    if req.bRequest = TUSB_REQ_GET_STATUS then
      if req.reqType = TUSB_REQ_TYPE_STANDARD ∧
          req.recipient = TUSB_REQ_RCPT_INTERFACE ∧
          req.direction = TUSB_DIR_IN then
        let s1 := { s with
          ctrlReqBuf := fun i =>
            if i = 1 then 0 else if i = 0 then 0 else s.ctrlReqBuf i }
        (s1, [Event.controlXfer (tu_min16 wLength 2)], ctrlOk)
      else (s, [], false)
    else (s, [], false)
  else (s, [], true)

/-- `usbinterface_xfer_cb(rhport, ep_addr, result, xferred_bytes)`.  Mirrors
the source: `TU_VERIFY(result == XFER_RESULT_SUCCESS)`; on the OUT endpoint,
invoke the consumer callback (if registered) with the receive buffer and the
transferred count, then `TU_ASSERT` the re-arming `usbd_edpt_xfer` of the
full 64-byte buffer (returning `resubmitOk`); on the IN endpoint, clear
`g_busy`; otherwise return `false`. -/
def usbinterface_xfer_cb (_rhport : Nat) (s : DriverState) (ep_addr : Nat)
    (result : XferResult) (xferred_bytes : Nat) (resubmitOk : Bool) :
    DriverState × List Event × Bool :=
  if result = XferResult.success then
    if ep_addr = s.bulkOut then
      (s,
       (if s.cbRegistered then [Event.consumerCb Buf.bulkOutBuf xferred_bytes]
        else []) ++
         [Event.submitXfer s.bulkOut Buf.bulkOutBuf BULK_BUFLEN_OUT],
       resubmitOk)
    else if ep_addr = s.bulkIn then
      ({ s with busy := false }, [], true)
    else (s, [], false)
  else (s, [], false)

/-- States reachable from the initial state by the driver operations named
in the spec's state-machine reading: send, open, endpoint disable, and the
transfer-completion callback, with arbitrary arguments and arbitrary stack
oracles (a `send` step exists only when it does not trip the length
assertion). -/
inductive Reachable : DriverState → Prop where
  | init : Reachable initState
  | send (s : DriverState) (len : Nat) (ok : Bool)
      (out : DriverState × List Event × Bool) :
      Reachable s → usbInterfaceSendBuffer s len ok = some out →
      Reachable out.1
  | openItf (rh : Nat) (s : DriverState) (itf : InterfaceDesc) (ml : Nat)
      (orc : OpenOracle) :
      Reachable s → Reachable (usbinterface_open rh s itf ml orc).1
  | disable (rh : Nat) (s : DriverState) (sel : EpSel) :
      Reachable s → Reachable (usbinterface_disable_endpoint rh s sel).1
  | xfer (rh : Nat) (s : DriverState) (ep : Nat) (res : XferResult) (n : Nat)
      (ok : Bool) :
      Reachable s → Reachable (usbinterface_xfer_cb rh s ep res n ok).1

/-- States reachable when the endpoint-disable path is never taken on its
own and the stack calls made inside `open` succeed (so `open` either rejects
at validation, leaving the state untouched, or completes). -/
inductive ReachableStk : DriverState → Prop where
  | init : ReachableStk initState
  | send (s : DriverState) (len : Nat) (ok : Bool)
      (out : DriverState × List Event × Bool) :
      ReachableStk s → usbInterfaceSendBuffer s len ok = some out →
      ReachableStk out.1
  | openItf (rh : Nat) (s : DriverState) (itf : InterfaceDesc) (ml : Nat)
      (orc : OpenOracle) :
      ReachableStk s → orc.pairOk = true → orc.xferOk = true →
      ReachableStk (usbinterface_open rh s itf ml orc).1
  | xfer (rh : Nat) (s : DriverState) (ep : Nat) (res : XferResult) (n : Nat)
      (ok : Bool) :
      ReachableStk s → ReachableStk (usbinterface_xfer_cb rh s ep res n ok).1

/-- A well-formed 2-endpoint vendor-specific interface offer. -/
def itfGood : InterfaceDesc :=
  { bInterfaceNumber := 0, bInterfaceClass := 0xFF, bNumEndpoints := 2 }

/-- A vendor-specific offer declaring zero endpoints. -/
def itfZeroEp : InterfaceDesc :=
  { bInterfaceNumber := 0, bInterfaceClass := 0xFF, bNumEndpoints := 0 }

/-- An offer with a non-vendor class code (HID, 0x03). -/
def itfHid : InterfaceDesc :=
  { bInterfaceNumber := 0, bInterfaceClass := 0x03, bNumEndpoints := 2 }

/-- Stack oracle where every call succeeds, claiming OUT address 0x01 and IN
address 0x81. -/
def orcGood : OpenOracle :=
  { pairOk := true, epOut := 0x01, epIn := 0x81, xferOk := true }

/-- A driver state as left by a successful open: opened, idle, endpoints
bound to 0x81 (IN) and 0x01 (OUT). -/
def sOpenIdle : DriverState :=
  { opened := true, busy := false, bulkIn := 0x81, bulkOut := 0x01,
    ctrlReqBuf := fun _ => 0, cbRegistered := false }

/-- The concrete (standard, interface, device-to-host) status query:
`bmRequestType = 0x81`, `bRequest = GET_STATUS`, `wLength = 4`. -/
def reqGetStatus : ControlRequest :=
  { recipient := 1, reqType := 0, direction := 1, bRequest := 0,
    wValue := 0, wIndex := 0, wLength := 4 }

/-- The same status query with host-to-device direction (`bmRequestType = 0x01`). -/
def reqGetStatusOut : ControlRequest :=
  { recipient := 1, reqType := 0, direction := 0, bRequest := 0,
    wValue := 0, wIndex := 0, wLength := 4 }

/-! ### Helper lemmas -/

lemma disable_busy (rh : Nat) (s : DriverState) (sel : EpSel) :
    (usbinterface_disable_endpoint rh s sel).1.busy = s.busy := by
  cases sel <;> simp only [usbinterface_disable_endpoint] <;> split <;> rfl

lemma send_state_cases (s : DriverState) (len : Nat) (ok : Bool)
    (out : DriverState × List Event × Bool)
    (heq : usbInterfaceSendBuffer s len ok = some out) :
    out.1 = s ∨ (out.1.opened = s.opened ∧ out.1.busy = true ∧
      s.opened = true) := by
  unfold usbInterfaceSendBuffer at heq
  by_cases hc : (s.opened && !s.busy) = true
  · rw [if_pos hc] at heq
    simp only [Bool.and_eq_true, Bool.not_eq_true'] at hc
    by_cases hm : len % 64 = 0
    · rw [if_pos hm] at heq
      injection heq with h
      subst h
      exact Or.inr ⟨rfl, rfl, hc.1⟩
    · rw [if_neg hm] at heq; cases heq
  · rw [if_neg hc] at heq
    injection heq with h
    subst h
    exact Or.inl rfl

lemma open_stk_state_cases (rh : Nat) (s : DriverState) (itf : InterfaceDesc)
    (ml : Nat) (orc : OpenOracle) (hp : orc.pairOk = true)
    (hx : orc.xferOk = true) :
    (usbinterface_open rh s itf ml orc).1 = s ∨
      (usbinterface_open rh s itf ml orc).1.opened = true := by
  unfold usbinterface_open
  by_cases hc : TUSB_CLASS_VENDOR_SPECIFIC = itf.bInterfaceClass
  · rw [if_pos hc]
    by_cases hl : openLen itf ≤ ml
    · rw [if_pos hl]
      exact Or.inr (by simp [hp, hx])
    · rw [if_neg hl]; exact Or.inl rfl
  · rw [if_neg hc]; exact Or.inl rfl

lemma xfer_state_cases (rh : Nat) (s : DriverState) (ep : Nat)
    (res : XferResult) (n : Nat) (ok : Bool) :
    (usbinterface_xfer_cb rh s ep res n ok).1 = s ∨
      (usbinterface_xfer_cb rh s ep res n ok).1.busy = false := by
  unfold usbinterface_xfer_cb
  split
  · split
    · exact Or.inl rfl
    · split
      · exact Or.inr rfl
      · exact Or.inl rfl
  · exact Or.inl rfl

/-! ### Claim C1 -/

/-- Claim C1 counterexample: with `opened = true`, `busy = false` and a
64-byte (multiple-of-64) buffer, a send whose stack submission fails returns
`false` even though `opened && !busy` held, after having set `busy` and made
one submission — refuting both the claimed iff and "otherwise … submits
nothing". -/
theorem send_iff_cex :
    sOpenIdle.opened = true ∧ sOpenIdle.busy = false ∧ (64 : Nat) % 64 = 0 ∧
    (usbInterfaceSendBuffer sOpenIdle 64 false).map (fun o => o.2.2) =
      some false ∧
    (usbInterfaceSendBuffer sOpenIdle 64 false).map (fun o => o.2.1) =
      some [Event.submitXfer 0x81 Buf.userBuf 64] ∧
    (usbInterfaceSendBuffer sOpenIdle 64 false).map (fun o => o.1.busy) =
      some true :=
  ⟨rfl, rfl, rfl, rfl, rfl, rfl⟩

/-- Claim C1 (amended): for a length that is a multiple of 64, when
`opened && !busy` holds at the call the driver sets `busy := true`, submits
exactly one outbound transfer on the IN endpoint, and returns accepted iff
the stack accepts the submission; otherwise it returns rejected immediately
with no state change and no submission. -/
theorem send_contract (s : DriverState) (len : Nat) (ok : Bool)
    (h : len % 64 = 0) :
    ∃ out, usbInterfaceSendBuffer s len ok = some out ∧
      (s.opened = true ∧ s.busy = false →
        out.1.busy = true ∧ out.1.opened = s.opened ∧
        out.1.bulkIn = s.bulkIn ∧ out.1.bulkOut = s.bulkOut ∧
        out.2.1 = [Event.submitXfer s.bulkIn Buf.userBuf len] ∧
        out.2.2 = ok) ∧
      (¬(s.opened = true ∧ s.busy = false) → out = (s, [], false)) := by
  by_cases hc : s.opened = true ∧ s.busy = false
  · obtain ⟨ho, hb⟩ := hc
    refine ⟨({ s with busy := true },
      [Event.submitXfer s.bulkIn Buf.userBuf len], ok), ?_, ?_, ?_⟩
    · simp [usbInterfaceSendBuffer, ho, hb, h]
    · intro _; exact ⟨rfl, rfl, rfl, rfl, rfl, rfl⟩
    · intro hcontra; exact absurd ⟨ho, hb⟩ hcontra
  · have hcond : ¬((s.opened && !s.busy) = true) := by
      intro hT
      simp only [Bool.and_eq_true, Bool.not_eq_true'] at hT
      exact hc hT
    refine ⟨(s, [], false), ?_, ?_, fun _ => rfl⟩
    · unfold usbInterfaceSendBuffer; rw [if_neg hcond]
    · intro hcc; exact absurd hcc hc

/-- Witness for C1 (amended), at the opened-and-idle state with a 64-byte
buffer and a succeeding stack. -/
theorem send_contract_witness :
    ∃ out, usbInterfaceSendBuffer sOpenIdle 64 true = some out ∧
      (sOpenIdle.opened = true ∧ sOpenIdle.busy = false →
        out.1.busy = true ∧ out.1.opened = sOpenIdle.opened ∧
        out.1.bulkIn = sOpenIdle.bulkIn ∧ out.1.bulkOut = sOpenIdle.bulkOut ∧
        out.2.1 = [Event.submitXfer sOpenIdle.bulkIn Buf.userBuf 64] ∧
        out.2.2 = true) ∧
      (¬(sOpenIdle.opened = true ∧ sOpenIdle.busy = false) →
        out = (sOpenIdle, [], false)) :=
  send_contract sOpenIdle 64 true rfl

/-! ### Claim C2 -/

/-- Claim C2 counterexample: the state reached by a successful open, an
accepted send, and then the endpoint-disable operation on the bound IN
endpoint has `busy = true` and `opened = false` — the disable path clears
`opened` without clearing `busy`, so the invariant fails on a reachable
state. -/
theorem busy_implies_opened_cex :
    ∃ s, Reachable s ∧ s.busy = true ∧ s.opened = false := by
  have h1 : Reachable (usbinterface_open 0 initState itfGood 23 orcGood).1 :=
    Reachable.openItf 0 initState itfGood 23 orcGood Reachable.init
  have h2 : Reachable { sOpenIdle with busy := true } :=
    Reachable.send (usbinterface_open 0 initState itfGood 23 orcGood).1 64 true
      ({ sOpenIdle with busy := true },
        [Event.submitXfer 0x81 Buf.userBuf 64], true)
      h1 rfl
  have h3 : Reachable
      (usbinterface_disable_endpoint 0 { sOpenIdle with busy := true }
        EpSel.inEp).1 :=
    Reachable.disable 0 { sOpenIdle with busy := true } EpSel.inEp h2
  exact ⟨_, h3, rfl, rfl⟩

/-- Claim C2 (amended): `busy` implies `opened` holds in every state
reachable from the initial state under send, open, and transfer-completion
operations, provided the stack calls made inside open (endpoint-pair claim
and first inbound submission) succeed; the endpoint-disable path — taken on
its own or inside an open that fails in the stack after disabling a bound
endpoint — can clear `opened` while `busy` stays true. -/
theorem busy_implies_opened_stk (s : DriverState) (h : ReachableStk s) :
    s.busy = true → s.opened = true := by
  induction h with
  | init => intro hb; simp [initState] at hb
  | send s len ok out hr heq ih =>
      intro hb
      rcases send_state_cases s len ok out heq with h1 | ⟨ho, _, hso⟩
      · rw [h1] at hb ⊢; exact ih hb
      · rw [ho, hso]
  | openItf rh s itf ml orc hr hp hx ih =>
      intro hb
      rcases open_stk_state_cases rh s itf ml orc hp hx with h1 | h1
      · rw [h1] at hb ⊢; exact ih hb
      · exact h1
  | xfer rh s ep res n ok hr ih =>
      intro hb
      rcases xfer_state_cases rh s ep res n ok with h1 | h1
      · rw [h1] at hb ⊢; exact ih hb
      · rw [h1] at hb; cases hb

/-- Witness for C2 (amended): the state after a successful open and an
accepted send is reachable under succeeding-stack operations, has
`busy = true`, and the theorem yields `opened = true` there. -/
theorem busy_implies_opened_stk_witness :
    ∃ s, ReachableStk s ∧ s.busy = true ∧ s.opened = true := by
  have h1 : ReachableStk (usbinterface_open 0 initState itfGood 23 orcGood).1 :=
    ReachableStk.openItf 0 initState itfGood 23 orcGood ReachableStk.init
      rfl rfl
  have h2 : ReachableStk { sOpenIdle with busy := true } :=
    ReachableStk.send (usbinterface_open 0 initState itfGood 23 orcGood).1
      64 true
      ({ sOpenIdle with busy := true },
        [Event.submitXfer 0x81 Buf.userBuf 64], true)
      h1 rfl
  exact ⟨_, h2, rfl, busy_implies_opened_stk _ h2 rfl⟩

/-! ### Claim C3 -/

/-- Claim C3: on a successful completion on the bound OUT endpoint with any
transferred length `n` (including 0), the emitted call sequence is: the
consumer callback exactly once with the receive buffer and exactly `n`
when one is registered (nothing otherwise), followed by exactly one
resubmission of an inbound transfer for the full 64-byte buffer capacity —
so the callback runs before the resubmission, and the resubmission happens
whether or not a callback is registered. -/
theorem xfer_cb_out_events (rh : Nat) (s : DriverState) (n : Nat)
    (ok : Bool) :
    (usbinterface_xfer_cb rh s s.bulkOut XferResult.success n ok).2.1 =
      (if s.cbRegistered then [Event.consumerCb Buf.bulkOutBuf n] else []) ++
        [Event.submitXfer s.bulkOut Buf.bulkOutBuf BULK_BUFLEN_OUT] := by
  unfold usbinterface_xfer_cb
  rw [if_pos rfl, if_pos rfl]

/-! ### Claim C4 -/

/-- Claim C4 counterexample: invoking the reset entry point on the state
left by a successful open leaves `opened = true` and both endpoint ids
bound (0x81, 0x01) — the reset entry point only logs; it neither unbinds
the endpoints nor clears `opened`. -/
theorem reset_cex :
    (usbinterface_reset 0 sOpenIdle).opened = true ∧
    (usbinterface_reset 0 sOpenIdle).bulkIn = 0x81 ∧
    (usbinterface_reset 0 sOpenIdle).bulkOut = 0x01 :=
  ⟨rfl, rfl, rfl⟩

/-- Claim C4 (amended): the reset entry point performs no state change at
all — after every invocation of reset, `opened`, `busy` and both endpoint
identifiers equal their prior values; the unbind-and-clear behaviour lives
only in the endpoint-disable helper invoked from open. -/
theorem reset_noop (rh : Nat) (s : DriverState) :
    usbinterface_reset rh s = s := rfl

/-! ### Claim C5 -/

/-- Claim C5 counterexample: a vendor-specific offer declaring zero
endpoints (with `max_len` = 9, enough for its computed required length) is
still claimed: open returns 9 (nonzero) and sets `opened = true`, so open
does not confirm the endpoint count. -/
theorem open_epcount_cex :
    itfZeroEp.bNumEndpoints ≠ 2 ∧
    (usbinterface_open 0 initState itfZeroEp 9 orcGood).2.2 = 9 ∧
    (usbinterface_open 0 initState itfZeroEp 9 orcGood).1.opened = true :=
  ⟨by decide, rfl, rfl⟩

/-- Claim C5 (amended): open performs no endpoint-count check: its
validation is only the class code and the offered length against
`9 + bNumEndpoints * 7`; for every offer passing those checks — whatever
`bNumEndpoints` declares — it attempts to bind two endpoints from the
following descriptor bytes and, when the stack calls succeed, claims the
interface (nonzero return, `opened = true`). -/
theorem open_no_epcount_check (rh : Nat) (s : DriverState)
    (itf : InterfaceDesc) (ml : Nat) (orc : OpenOracle)
    (hc : itf.bInterfaceClass = TUSB_CLASS_VENDOR_SPECIFIC)
    (hl : openLen itf ≤ ml) (hp : orc.pairOk = true)
    (hx : orc.xferOk = true) :
    (usbinterface_open rh s itf ml orc).2.2 = openLen itf ∧
    (usbinterface_open rh s itf ml orc).1.opened = true := by
  constructor <;> simp [usbinterface_open, hc, hl, hp, hx]

/-- Witness for C5 (amended): the zero-endpoint vendor offer instantiates
every hypothesis. -/
theorem open_no_epcount_check_witness :
    (usbinterface_open 0 initState itfZeroEp 9 orcGood).2.2 =
      openLen itfZeroEp ∧
    (usbinterface_open 0 initState itfZeroEp 9 orcGood).1.opened = true :=
  open_no_epcount_check 0 initState itfZeroEp 9 orcGood rfl (by decide)
    rfl rfl

/-! ### Claim C6 -/

/-- Claim C6: for every offer whose class code is not vendor-specific, open
returns 0, leaves the whole state unchanged (in particular `opened`), and
makes no stack call at all (no endpoint released or claimed). -/
theorem open_rejects_other_class (rh : Nat) (s : DriverState)
    (itf : InterfaceDesc) (ml : Nat) (orc : OpenOracle)
    (h : itf.bInterfaceClass ≠ TUSB_CLASS_VENDOR_SPECIFIC) :
    usbinterface_open rh s itf ml orc = (s, [], 0) := by
  unfold usbinterface_open
  rw [if_neg (fun e => h e.symm)]

/-- Witness for C6: a HID-class (0x03) offer against the opened-and-idle
state. -/
theorem open_rejects_other_class_witness :
    usbinterface_open 0 sOpenIdle itfHid 100 orcGood = (sOpenIdle, [], 0) :=
  open_rejects_other_class 0 sOpenIdle itfHid 100 orcGood (by decide)

/-! ### Claim C7 -/

/-- Claim C7: the required length is `9 + bNumEndpoints * 7`; a matching
class offer with `max_len` below it is rejected with 0, state untouched and
no stack call (no endpoint bound or released); with `max_len` at least the
required length and succeeding stack calls, open returns exactly the
required length and sets `opened = true`. -/
theorem open_len_contract (rh : Nat) (s : DriverState) (itf : InterfaceDesc)
    (orc : OpenOracle) (mlShort mlBig : Nat)
    (hc : itf.bInterfaceClass = TUSB_CLASS_VENDOR_SPECIFIC)
    (hshort : mlShort < openLen itf) (hbig : openLen itf ≤ mlBig)
    (hp : orc.pairOk = true) (hx : orc.xferOk = true) :
    openLen itf = DESC_INTERFACE_LEN +
      itf.bNumEndpoints * DESC_ENDPOINT_LEN ∧
    usbinterface_open rh s itf mlShort orc = (s, [], 0) ∧
    (usbinterface_open rh s itf mlBig orc).2.2 = openLen itf ∧
    (usbinterface_open rh s itf mlBig orc).1.opened = true := by
  refine ⟨rfl, ?_, ?_, ?_⟩
  · unfold usbinterface_open
    rw [if_pos hc.symm, if_neg (Nat.not_le.mpr hshort)]
  · simp [usbinterface_open, hc, hbig, hp, hx]
  · simp [usbinterface_open, hc, hbig, hp, hx]

/-- Witness for C7: the two-endpoint vendor offer (required length 23) with
`max_len` 22 (rejected) and 23 (claimed). -/
theorem open_len_contract_witness :
    openLen itfGood = DESC_INTERFACE_LEN +
      itfGood.bNumEndpoints * DESC_ENDPOINT_LEN ∧
    usbinterface_open 0 initState itfGood 22 orcGood = (initState, [], 0) ∧
    (usbinterface_open 0 initState itfGood 23 orcGood).2.2 =
      openLen itfGood ∧
    (usbinterface_open 0 initState itfGood 23 orcGood).1.opened = true :=
  open_len_contract 0 initState itfGood orcGood 22 23 rfl (by decide)
    (by decide) rfl rfl

/-! ### Claim C8 -/

/-- Claim C8: at the setup stage, a status-query (`GET_STATUS`) request with
(standard, interface, device-to-host) `bmRequestType` bits is handled: the
first two control-scratch bytes are zeroed and one control response of
length `min(min(wLength, 256), 2)` is initiated; every request failing that
condition — another bit combination under the same code, or any other
request code — returns `false` with no state change and no stack call. -/
theorem control_get_status_contract (rh : Nat) (s : DriverState)
    (ok1 ok2 : Bool) (req1 req2 : ControlRequest)
    (h1 : req1.bRequest = TUSB_REQ_GET_STATUS ∧
      req1.reqType = TUSB_REQ_TYPE_STANDARD ∧
      req1.recipient = TUSB_REQ_RCPT_INTERFACE ∧
      req1.direction = TUSB_DIR_IN)
    (h2 : ¬(req2.bRequest = TUSB_REQ_GET_STATUS ∧
      req2.reqType = TUSB_REQ_TYPE_STANDARD ∧
      req2.recipient = TUSB_REQ_RCPT_INTERFACE ∧
      req2.direction = TUSB_DIR_IN)) :
    ((usbinterface_control_xfer_cb rh s CtrlStage.setup req1 ok1).1.ctrlReqBuf
        0 = 0 ∧
      (usbinterface_control_xfer_cb rh s CtrlStage.setup req1
        ok1).1.ctrlReqBuf 1 = 0 ∧
      (usbinterface_control_xfer_cb rh s CtrlStage.setup req1 ok1).2.1 =
        [Event.controlXfer
          (tu_min16 (tu_min16 req1.wLength CTRL_REQ_BUF_LEN) 2)]) ∧
    usbinterface_control_xfer_cb rh s CtrlStage.setup req2 ok2 =
      (s, [], false) := by
  obtain ⟨hb, ht, hr, hd⟩ := h1
  constructor
  · refine ⟨?_, ?_, ?_⟩ <;>
      simp [usbinterface_control_xfer_cb, hb, ht, hr, hd]
  · unfold usbinterface_control_xfer_cb
    rw [if_pos rfl]
    by_cases hb2 : req2.bRequest = TUSB_REQ_GET_STATUS
    · rw [if_pos hb2, if_neg (fun hbits => h2 ⟨hb2, hbits⟩)]
    · rw [if_neg hb2]

/-- Witness for C8: the concrete device-to-host status query is handled;
the same query with host-to-device direction is declined. -/
theorem control_get_status_contract_witness :
    ((usbinterface_control_xfer_cb 0 initState CtrlStage.setup reqGetStatus
        true).1.ctrlReqBuf 0 = 0 ∧
      (usbinterface_control_xfer_cb 0 initState CtrlStage.setup reqGetStatus
        true).1.ctrlReqBuf 1 = 0 ∧
      (usbinterface_control_xfer_cb 0 initState CtrlStage.setup reqGetStatus
        true).2.1 =
        [Event.controlXfer
          (tu_min16 (tu_min16 reqGetStatus.wLength CTRL_REQ_BUF_LEN) 2)]) ∧
    usbinterface_control_xfer_cb 0 initState CtrlStage.setup reqGetStatusOut
      true = (initState, [], false) :=
  control_get_status_contract 0 initState true true reqGetStatus
    reqGetStatusOut ⟨rfl, rfl, rfl, rfl⟩ (by decide)

/-! ### Claim C9 -/

/-- Claim C9: open never writes the `busy` flag — for every call, whatever
the offer, the offered length and the stack-call outcomes, `busy` after the
call equals `busy` before it; in particular a successful re-open performed
while `busy = true` leaves `busy = true`. -/
theorem open_preserves_busy (rh : Nat) (s : DriverState)
    (itf : InterfaceDesc) (ml : Nat) (orc : OpenOracle) :
    (usbinterface_open rh s itf ml orc).1.busy = s.busy := by
  unfold usbinterface_open
  by_cases hc : TUSB_CLASS_VENDOR_SPECIFIC = itf.bInterfaceClass
  · rw [if_pos hc]
    by_cases hl : openLen itf ≤ ml
    · rw [if_pos hl]
      by_cases hp : orc.pairOk = true
      · by_cases hx : orc.xferOk = true
        · simp [hp, hx, disable_busy]
        · simp [hp, hx, disable_busy]
      · simp [hp, disable_busy]
    · rw [if_neg hl]
  · rw [if_neg hc]

/-! ### Claim C10 -/

/-- Claim C10: a successful transfer completion on an endpoint that is
neither the bound OUT endpoint nor the bound IN endpoint returns `false`
and produces exactly the pre-call state — `busy`, `opened` and both
bindings unchanged — with no consumer callback and no submission. -/
theorem xfer_cb_foreign_ep (rh : Nat) (s : DriverState) (ep : Nat) (n : Nat)
    (ok : Bool) (h1 : ep ≠ s.bulkOut) (h2 : ep ≠ s.bulkIn) :
    usbinterface_xfer_cb rh s ep XferResult.success n ok = (s, [], false) := by
  unfold usbinterface_xfer_cb
  rw [if_pos rfl, if_neg h1, if_neg h2]

/-- Witness for C10: endpoint 5 against the opened-and-idle state (whose
bindings are 0x01 and 0x81). -/
theorem xfer_cb_foreign_ep_witness :
    usbinterface_xfer_cb 0 sOpenIdle 5 XferResult.success 10 true =
      (sOpenIdle, [], false) :=
  xfer_cb_foreign_ep 0 sOpenIdle 5 10 true (by decide) (by decide)

end UsbInterface
